import Mathlib

/-!
Verification of the disjoint-access world cell
(`crates/bevy_ecs/src/world/unsafe_world_cell.rs`).

The cell is shallowly embedded: the handle types `UnsafeWorldCell` and
`UnsafeEntityCell` from the source are modelled as the Lean structures
`WorldCell` and `EntityCell` (renamed only because of naming restrictions in
this development), the external collaborators (component registry, entity
index, tables, sparse sets, resource storage) are modelled as function-valued
fields of a `World` record, and debug panics are modelled with
`Except String`: a `.error m` result is a panic with message `m`.
-/

namespace Bevy

/-- Model of an opaque type identity (`core::any::TypeId`). -/
abbrev TypeId := Nat

/-- Model of an untyped data pointer (`bevy_ptr::Ptr`); the claims only track
which pointer is returned, never the pointed-at bytes. -/
abbrev Ptr := Nat

/-- Model of a reference to a tick cell (`&UnsafeCell<Tick>`). -/
abbrev TickCell := Nat

/-- Model of a reference to the caller-location cell of a row
(`&UnsafeCell<&'static Location<'static>>`).  The `MaybeLocation` wrapper is
modelled as the identity, i.e. the build captures caller locations. -/
abbrev CallerCell := Nat

/-- Model of a source-code location (`&'static Location<'static>`). -/
abbrev CallerLoc := Nat

/-- Model of `component::Tick`, a wrapped `u32` counter value. -/
structure Tick where
  tick : Nat
  deriving DecidableEq

/-- Model of `Tick::new`. -/
def Tick.new (t : Nat) : Tick := ⟨t⟩

/-- Model of `component::ComponentId`. -/
structure ComponentId where
  index : Nat
  deriving DecidableEq

/-- Model of `entity::Entity` (the claims never split generation and index). -/
structure Entity where
  index : Nat
  deriving DecidableEq

/-- Model of `storage::TableRow`. -/
structure TableRow where
  index : Nat
  deriving DecidableEq

/-- Model of `storage::TableId`. -/
structure TableId where
  index : Nat
  deriving DecidableEq

/-- Model of `archetype::ArchetypeId`. -/
structure ArchetypeId where
  index : Nat
  deriving DecidableEq

/-- Model of `component::StorageType`: the two storage kinds used for
dispatch. -/
inductive StorageType where
  | Table
  | SparseSet
  deriving DecidableEq

/-- Model of the slice of `component::ComponentInfo` the cell consults:
`ComponentInfo::storage_type()` and `ComponentInfo::mutable()`. -/
structure ComponentInfo where
  storage_type : StorageType
  mutable : Bool
  deriving DecidableEq

/-- Model of `entity::EntityLocation`. -/
structure EntityLocation where
  archetype_id : ArchetypeId
  archetype_row : Nat
  table_id : TableId
  table_row : TableRow
  deriving DecidableEq

/-- Model of an `archetype::Archetype`, reduced to the one operation the cell
uses: `Archetype::contains(component_id)`. -/
structure Archetype where
  contains : ComponentId → Bool

/-- Model of `component::TickCells`: the pair of `added`/`changed` tick cells
returned alongside a component pointer. -/
structure TickCells where
  added : TickCell
  changed : TickCell
  deriving DecidableEq

/-- Model of a `storage::Table`, reduced to the row accessors the cell calls.
Each accessor returns `none` when the table lacks a column for the component
(or the row is out of bounds in the underlying storage). -/
structure Table where
  get_component : ComponentId → TableRow → Option Ptr
  get_added_tick : ComponentId → TableRow → Option TickCell
  get_changed_tick : ComponentId → TableRow → Option TickCell
  get_changed_by : ComponentId → TableRow → Option CallerCell

/-- Model of a `storage::ComponentSparseSet`: per-component map keyed by
entity.  `get e = none` means the entity is not present in the set. -/
structure ComponentSparseSet where
  get : Entity → Option Ptr
  get_with_ticks : Entity → Option (Ptr × TickCells × CallerCell)

/-- Model of one entry of the resource storage (`ResourceData`): the entry
exists but may hold no value, in which case `get_data`/`get_with_ticks`
return `none`. -/
structure ResourceData where
  get_data : Option Ptr
  get_with_ticks : Option (Ptr × TickCells × CallerCell)

/-- Model of the component registry (`component::Components`), reduced to the
four collaborator functions the cell consults. -/
structure Components where
  get_id : TypeId → Option ComponentId
  get_valid_id : TypeId → Option ComponentId
  get_valid_resource_id : TypeId → Option ComponentId
  get_info : ComponentId → Option ComponentInfo

/-- Model of the entity index (`entity::Entities`).  The field
`entity_get_spawned_or_despawned_by` returns the inner option of the
`MaybeLocation<Option<..>>` the source receives: `none` models
present-but-unset spawn metadata. -/
structure Entities where
  get : Entity → Option EntityLocation
  entity_get_spawned_or_despawned_by : Entity → Option CallerLoc

/-- Model of `storage::Storages`: the four stores the cell indexes into. -/
structure Storages where
  tables : TableId → Option Table
  sparse_sets : ComponentId → Option ComponentSparseSet
  resources : ComponentId → Option ResourceData
  non_send_resources : ComponentId → Option ResourceData

/-- Model of the `World` fields reachable through the cell.  The change-tick
counter is an atomic `u32` in the source; it is kept as a `Nat` with the
wraparound written out explicitly where the source wraps. -/
structure World where
  entities : Entities
  archetypes : ArchetypeId → Archetype
  components : Components
  storages : Storages
  change_tick : Nat
  last_change_tick : Tick
  last_trigger_id : Nat

/-- Model of `UnsafeWorldCell`: the world pointer plus the
`allows_mutable_access` capability bit of debug builds. -/
structure WorldCell where
  ptr : World
  allows_mutable_access : Bool

/-- Model of `UnsafeEntityCell`: parent cell, entity id, cached location and
the change-detection tick window. -/
structure EntityCell where
  world : WorldCell
  entity : Entity
  location : EntityLocation
  last_run : Tick
  this_run : Tick

/-- Fixed message of the capability assertion
(`UnsafeWorldCell::assert_allows_mutable_access`). -/
def assertForbiddenMsg : String :=
  "mutating world data via `World::as_unsafe_world_cell_readonly` is forbidden"

/-- Message of a failed `debug_checked_unwrap` (the `unreachable!()` panic of
debug builds). -/
def unreachableMsg : String :=
  "internal error: entered unreachable code"

/-- Message of `Option::unwrap` on `None`. -/
def unwrapNoneMsg : String :=
  "called Option::unwrap() on a None value"

/-- Decides whether `pat` is a prefix of the second list. -/
def headMatches : List Char → List Char → Bool
  | [], _ => true
  | _ :: _, [] => false
  | p :: ps, c :: cs => p == c && headMatches ps cs

/-- Decides whether `pat` occurs contiguously inside the second list. -/
def substrOf (pat : List Char) : List Char → Bool
  | [] => headMatches pat []
  | c :: cs => headMatches pat (c :: cs) || substrOf pat cs

/-- Character pattern the read-only no-escalation claim is about. -/
def forbiddenPat : List Char :=
  "is forbidden".data

/-- Holds of a computation that panicked with a message containing
"is forbidden". -/
def is_forbidden_panic {α : Type} : Except String α → Bool
  | .error m => substrOf forbiddenPat m.data
  | .ok _ => false

/-- Model of `DebugCheckedUnwrap::debug_checked_unwrap`: in debug builds a
`None` panics with the `unreachable!` message. -/
def debug_checked_unwrap {α : Type} : Option α → Except String α
  | some a => .ok a
  | none => .error unreachableMsg

/-- Model of Rust `Option::ok_or`. -/
def ok_or {α β : Type} (o : Option α) (err : β) : Except β α :=
  match o with
  | some a => .ok a
  | none => .error err

/-- Model of `change_detection::TicksMut` as assembled by
`TicksMut::from_tick_cells`. -/
structure TicksMut where
  added : TickCell
  changed : TickCell
  last_run : Tick
  this_run : Tick
  deriving DecidableEq

/-- Model of `TicksMut::from_tick_cells`. -/
def TicksMut.from_tick_cells (cells : TickCells) (last_run this_run : Tick) : TicksMut :=
  { added := cells.added, changed := cells.changed
    last_run := last_run, this_run := this_run }

/-- Model of `change_detection::MutUntyped` (also standing in for the typed
`Mut<T>`, whose extra content is only the type attached to the pointer). -/
structure MutUntyped where
  value : Ptr
  ticks : TicksMut
  changed_by : CallerCell
  deriving DecidableEq

/-- Model of a typed component parameter `T: Component`: its `TypeId` and its
associated constant `T::STORAGE_TYPE`. -/
structure ComponentType where
  type_id : TypeId
  storage_type : StorageType

/-- Error of `UnsafeWorldCell::get_entity`.  The source error also carries a
diagnostic hint string computed from the entity index; the claims only
discriminate on the entity, so only the entity is kept. -/
structure EntityDoesNotExistError where
  entity : Entity
  deriving DecidableEq

/-- Error enum of `UnsafeEntityCell::get_mut_by_id`. -/
inductive GetEntityMutByIdError where
  | InfoNotFound
  | ComponentIsImmutable
  | ComponentNotFound
  deriving DecidableEq

namespace WorldCell

/-- Model of `UnsafeWorldCell::new_readonly`: capability bit false. -/
def new_readonly (world : World) : WorldCell :=
  { ptr := world, allows_mutable_access := false }

/-- Model of `UnsafeWorldCell::new_mutable`: capability bit true. -/
def new_mutable (world : World) : WorldCell :=
  { ptr := world, allows_mutable_access := true }

/-- Model of `UnsafeWorldCell::assert_allows_mutable_access` in a debug
build: panics with the fixed message when the capability bit is false. -/
def assert_allows_mutable_access (c : WorldCell) : Except String Unit :=
  if c.allows_mutable_access then .ok () else .error assertForbiddenMsg

/-- Model of `UnsafeWorldCell::world_mut`: asserts the capability, then hands
out the whole world. -/
def world_mut (c : WorldCell) : Except String World :=
  (c.assert_allows_mutable_access).bind fun _ => .ok c.ptr

/-- Model of the private `UnsafeWorldCell::unsafe_world`. -/
def unchecked_world (c : WorldCell) : World := c.ptr

/-- Model of `UnsafeWorldCell::world_metadata`. -/
def world_metadata (c : WorldCell) : World := c.unchecked_world

/-- Model of `UnsafeWorldCell::entities`. -/
def entities (c : WorldCell) : Entities := c.world_metadata.entities

/-- Model of `UnsafeWorldCell::archetypes` (as the indexing function). -/
def archetypes (c : WorldCell) : ArchetypeId → Archetype := c.world_metadata.archetypes

/-- Model of `UnsafeWorldCell::components`. -/
def components (c : WorldCell) : Components := c.world_metadata.components

/-- Model of `UnsafeWorldCell::change_tick` (relaxed atomic load). -/
def change_tick (c : WorldCell) : Tick := Tick.new c.world_metadata.change_tick

/-- Model of `UnsafeWorldCell::last_change_tick`. -/
def last_change_tick (c : WorldCell) : Tick := c.world_metadata.last_change_tick

/-- Model of `UnsafeWorldCell::increment_change_tick`: a fetch-and-add of one
on the `u32` counter, returning the pre-increment value. -/
def increment_change_tick (c : WorldCell) : Tick × WorldCell :=
  (Tick.new c.ptr.change_tick,
    { c with ptr := { c.ptr with change_tick := (c.ptr.change_tick + 1) % 2 ^ 32 } })

/-- Model of `UnsafeWorldCell::storages`. -/
def storages (c : WorldCell) : Storages := c.unchecked_world.storages

/-- Model of `UnsafeWorldCell::get_entity`: resolve the entity against the
entity index, then carry the location and the world's own tick window. -/
def get_entity (c : WorldCell) (entity : Entity) :
    Except EntityDoesNotExistError EntityCell :=
  match c.entities.get entity with
  | none => .error { entity := entity }
  | some location =>
    .ok { world := c, entity := entity, location := location
          last_run := c.last_change_tick, this_run := c.change_tick }

/-- Model of `UnsafeWorldCell::get_entity_with_ticks`: as `get_entity` but
the tick window is supplied by the caller. -/
def get_entity_with_ticks (c : WorldCell) (entity : Entity) (last_run this_run : Tick) :
    Except EntityDoesNotExistError EntityCell :=
  match c.entities.get entity with
  | none => .error { entity := entity }
  | some location =>
    .ok { world := c, entity := entity, location := location
          last_run := last_run, this_run := this_run }

/-- Model of `UnsafeWorldCell::get_resource_by_id`. -/
def get_resource_by_id (c : WorldCell) (component_id : ComponentId) : Option Ptr :=
  (c.storages.resources component_id).bind fun r => r.get_data

/-- Model of `UnsafeWorldCell::get_resource::<R>` with `R` passed as its type
id; the final typed deref keeps the same pointer. -/
def get_resource (c : WorldCell) (R : TypeId) : Option Ptr :=
  (c.components.get_valid_resource_id R).bind fun component_id =>
    c.get_resource_by_id component_id

/-- Model of `UnsafeWorldCell::get_resource_mut_by_id`: asserts the
capability, then fetches pointer plus tick cells and wraps them. -/
def get_resource_mut_by_id (c : WorldCell) (component_id : ComponentId) :
    Except String (Option MutUntyped) :=
  (c.assert_allows_mutable_access).bind fun _ =>
    .ok (((c.storages.resources component_id).bind fun r => r.get_with_ticks).map fun x =>
      { value := x.1
        ticks := TicksMut.from_tick_cells x.2.1 c.last_change_tick c.change_tick
        changed_by := x.2.2 })

/-- Model of `UnsafeWorldCell::get_resource_mut::<R>`: asserts, resolves the
resource id, then defers to the untyped accessor (which asserts again). -/
def get_resource_mut (c : WorldCell) (R : TypeId) : Except String (Option MutUntyped) :=
  (c.assert_allows_mutable_access).bind fun _ =>
    match c.components.get_valid_resource_id R with
    | none => .ok none
    | some component_id => c.get_resource_mut_by_id component_id

/-- Model of `UnsafeWorldCell::get_non_send_resource_mut_by_id` (the
thread-affinity panic lives in the storage layer, outside this model). -/
def get_non_send_resource_mut_by_id (c : WorldCell) (component_id : ComponentId) :
    Except String (Option MutUntyped) :=
  (c.assert_allows_mutable_access).bind fun _ =>
    .ok (((c.storages.non_send_resources component_id).bind fun r => r.get_with_ticks).map
      fun x =>
        { value := x.1
          ticks := TicksMut.from_tick_cells x.2.1 c.last_change_tick c.change_tick
          changed_by := x.2.2 })

/-- Model of `UnsafeWorldCell::get_non_send_resource_mut::<R>`. -/
def get_non_send_resource_mut (c : WorldCell) (R : TypeId) :
    Except String (Option MutUntyped) :=
  (c.assert_allows_mutable_access).bind fun _ =>
    match c.components.get_valid_resource_id R with
    | none => .ok none
    | some component_id => c.get_non_send_resource_mut_by_id component_id

/-- Model of `UnsafeWorldCell::increment_trigger_id`: asserts the capability,
then wrapping-adds one to the `u32` trigger counter. -/
def increment_trigger_id (c : WorldCell) : Except String WorldCell :=
  (c.assert_allows_mutable_access).bind fun _ =>
    .ok { c with ptr := { c.ptr with last_trigger_id := (c.ptr.last_trigger_id + 1) % 2 ^ 32 } }

/-- Model of the private `UnsafeWorldCell::fetch_table`. -/
def fetch_table (c : WorldCell) (location : EntityLocation) : Option Table :=
  c.storages.tables location.table_id

/-- Model of the private `UnsafeWorldCell::fetch_sparse_set`. -/
def fetch_sparse_set (c : WorldCell) (component_id : ComponentId) : Option ComponentSparseSet :=
  c.storages.sparse_sets component_id

end WorldCell

/-- Model of the free function `get_component`: dispatch solely on the
storage kind; tables are indexed by the cached location, sparse sets by the
entity id. -/
def get_component (world : WorldCell) (component_id : ComponentId)
    (storage_type : StorageType) (entity : Entity) (location : EntityLocation) :
    Option Ptr :=
  match storage_type with
  | .Table => (world.fetch_table location).bind fun table =>
      table.get_component component_id location.table_row
  | .SparseSet => (world.fetch_sparse_set component_id).bind fun s => s.get entity

/-- Model of the free function `get_component_and_ticks`: like
`get_component`, but in the table branch the `added`/`changed` tick cells and
the caller-location cell at the row are also retrieved (each through
`debug_checked_unwrap`). -/
def get_component_and_ticks (world : WorldCell) (component_id : ComponentId)
    (storage_type : StorageType) (entity : Entity) (location : EntityLocation) :
    Except String (Option (Ptr × TickCells × CallerCell)) :=
  match storage_type with
  | .Table =>
    match world.fetch_table location with
    | none => .ok none
    | some table =>
      match table.get_component component_id location.table_row with
      | none => .ok none
      | some value =>
        (debug_checked_unwrap (table.get_added_tick component_id location.table_row)).bind
          fun added =>
        (debug_checked_unwrap (table.get_changed_tick component_id location.table_row)).bind
          fun changed =>
        (debug_checked_unwrap (table.get_changed_by component_id location.table_row)).bind
          fun caller =>
        .ok (some (value, { added := added, changed := changed }, caller))
  | .SparseSet =>
    .ok ((world.fetch_sparse_set component_id).bind fun s => s.get_with_ticks entity)

namespace EntityCell

/-- Model of `UnsafeEntityCell::new`. -/
def new (world : WorldCell) (entity : Entity) (location : EntityLocation)
    (last_run this_run : Tick) : EntityCell :=
  { world := world, entity := entity, location := location
    last_run := last_run, this_run := this_run }

/-- Model of `UnsafeEntityCell::id`. -/
def id (c : EntityCell) : Entity := c.entity

/-- Model of `UnsafeEntityCell::archetype` (total because a cached location
always names a live archetype). -/
def archetype (c : EntityCell) : Archetype :=
  c.world.archetypes c.location.archetype_id

/-- Model of `UnsafeEntityCell::contains_id`. -/
def contains_id (c : EntityCell) (component_id : ComponentId) : Bool :=
  c.archetype.contains component_id

/-- Model of `UnsafeEntityCell::contains_type_id`. -/
def contains_type_id (c : EntityCell) (type_id : TypeId) : Bool :=
  match c.world.components.get_id type_id with
  | none => false
  | some cid => c.contains_id cid

/-- Model of `UnsafeEntityCell::contains::<T>`. -/
def contains (c : EntityCell) (T : ComponentType) : Bool :=
  c.contains_type_id T.type_id

/-- Model of `UnsafeEntityCell::get::<T>`: resolve the type through
`get_valid_id`, then dispatch on `T::STORAGE_TYPE`. -/
def get (c : EntityCell) (T : ComponentType) : Option Ptr :=
  (c.world.components.get_valid_id T.type_id).bind fun component_id =>
    get_component c.world component_id T.storage_type c.entity c.location

/-- Model of `UnsafeEntityCell::get_mut_using_ticks_assume_mutable::<T>`:
asserts the capability, resolves the type, then wraps pointer and tick cells
with the supplied tick window. -/
def get_mut_using_ticks_assume_mutable (c : EntityCell)
    (last_change_tick change_tick : Tick) (T : ComponentType) :
    Except String (Option MutUntyped) :=
  (c.world.assert_allows_mutable_access).bind fun _ =>
    match c.world.components.get_valid_id T.type_id with
    | none => .ok none
    | some component_id =>
      (get_component_and_ticks c.world component_id T.storage_type c.entity c.location).bind
        fun r =>
          .ok (r.map fun x =>
            { value := x.1
              ticks := TicksMut.from_tick_cells x.2.1 last_change_tick change_tick
              changed_by := x.2.2 })

/-- Model of `UnsafeEntityCell::get_mut_assume_mutable::<T>`. -/
def get_mut_assume_mutable (c : EntityCell) (T : ComponentType) :
    Except String (Option MutUntyped) :=
  c.get_mut_using_ticks_assume_mutable c.last_run c.this_run T

/-- Model of `UnsafeEntityCell::get_mut::<T>`; the source additionally
requires `T: Component<Mutability = Mutable>` at the type level and then
behaves exactly like the assume-mutable variant. -/
def get_mut (c : EntityCell) (T : ComponentType) : Except String (Option MutUntyped) :=
  c.get_mut_assume_mutable T

/-- Model of `UnsafeEntityCell::get_mut_by_id`: asserts the capability, then
discriminates unknown id, immutable component, and missing component, in that
order. -/
def get_mut_by_id (c : EntityCell) (component_id : ComponentId) :
    Except String (Except GetEntityMutByIdError MutUntyped) :=
  (c.world.assert_allows_mutable_access).bind fun _ =>
    match c.world.components.get_info component_id with
    | none => .ok (.error .InfoNotFound)
    | some info =>
      if !info.mutable then .ok (.error .ComponentIsImmutable)
      else
        (get_component_and_ticks c.world component_id info.storage_type c.entity
            c.location).bind fun r =>
          .ok (ok_or (r.map fun x =>
            ({ value := x.1
               ticks := TicksMut.from_tick_cells x.2.1 c.last_run c.this_run
               changed_by := x.2.2 } : MutUntyped)) GetEntityMutByIdError.ComponentNotFound)

/-- Model of `UnsafeEntityCell::get_mut_assume_mutable_by_id`: like
`get_mut_by_id` with the mutability check removed. -/
def get_mut_assume_mutable_by_id (c : EntityCell) (component_id : ComponentId) :
    Except String (Except GetEntityMutByIdError MutUntyped) :=
  (c.world.assert_allows_mutable_access).bind fun _ =>
    match c.world.components.get_info component_id with
    | none => .ok (.error .InfoNotFound)
    | some info =>
      (get_component_and_ticks c.world component_id info.storage_type c.entity
          c.location).bind fun r =>
        .ok (ok_or (r.map fun x =>
          ({ value := x.1
             ticks := TicksMut.from_tick_cells x.2.1 c.last_run c.this_run
             changed_by := x.2.2 } : MutUntyped)) GetEntityMutByIdError.ComponentNotFound)

/-- Model of `UnsafeEntityCell::spawned_by`: unwraps the spawn metadata
returned by the entity index inside a map; present-but-unset metadata
panics. -/
def spawned_by (c : EntityCell) : Except String CallerLoc :=
  match c.world.entities.entity_get_spawned_or_despawned_by c.entity with
  | some l => .ok l
  | none => .error unwrapNoneMsg

end EntityCell

/-- Iterates `increment_change_tick`, collecting the returned ticks in call
order. -/
def run_increments : WorldCell → Nat → List Tick × WorldCell
  | c, 0 => ([], c)
  | c, n + 1 =>
    let p := c.increment_change_tick
    let q := run_increments p.2 n
    (p.1 :: q.1, q.2)

/-- Value of the change-tick counter after `k` wrapping increments from
`t`. -/
def tick_after (t : Nat) : Nat → Nat
  | 0 => t
  | k + 1 => (tick_after t k + 1) % 2 ^ 32

/-- Concrete entity location used by the evaluation worlds below. -/
def loc0 : EntityLocation :=
  { archetype_id := ⟨0⟩, archetype_row := 0, table_id := ⟨0⟩, table_row := ⟨0⟩ }

/-- Concrete world with nothing registered, nothing stored. -/
def emptyWorld : World :=
  { entities :=
      { get := fun _ => none
        entity_get_spawned_or_despawned_by := fun _ => none }
    archetypes := fun _ => { contains := fun _ => false }
    components :=
      { get_id := fun _ => none
        get_valid_id := fun _ => none
        get_valid_resource_id := fun _ => none
        get_info := fun _ => none }
    storages :=
      { tables := fun _ => none
        sparse_sets := fun _ => none
        resources := fun _ => none
        non_send_resources := fun _ => none }
    change_tick := 0
    last_change_tick := Tick.new 0
    last_trigger_id := 0 }

/-- Concrete sparse set storing every entity (pointer 9, tick cells 4 and 5,
caller cell 6). -/
def ssetFull : ComponentSparseSet :=
  { get := fun _ => some 9
    get_with_ticks := fun _ => some (9, { added := 4, changed := 5 }, 6) }

/-- Concrete world for the untyped-write error ladder: component id 1 is
registered immutable, component id 2 is registered mutable with an empty
sparse set (so every entity lacks it), and component id 3 is registered
mutable with a full sparse set. -/
def wErr : World :=
  { emptyWorld with
    components :=
      { emptyWorld.components with
        get_info := fun cid =>
          if cid.index == 1 then some { storage_type := .SparseSet, mutable := false }
          else if cid.index == 2 then some { storage_type := .SparseSet, mutable := true }
          else if cid.index == 3 then some { storage_type := .SparseSet, mutable := true }
          else none }
    storages :=
      { emptyWorld.storages with
        sparse_sets := fun cid => if cid.index == 3 then some ssetFull else none } }

/-- Concrete table holding component id 0 at row 0 (with its tick and
caller-location cells). -/
def tableFull : Table :=
  { get_component := fun cid row => if cid.index == 0 && row.index == 0 then some 7 else none
    get_added_tick := fun cid row => if cid.index == 0 && row.index == 0 then some 1 else none
    get_changed_tick := fun cid row => if cid.index == 0 && row.index == 0 then some 2 else none
    get_changed_by := fun cid row => if cid.index == 0 && row.index == 0 then some 3 else none }

/-- Concrete sparse set containing no entity. -/
def ssetEmpty : ComponentSparseSet :=
  { get := fun _ => none, get_with_ticks := fun _ => none }

/-- Concrete world for the absence-equivalence evaluation: type id 0 maps to
component id 0, every archetype contains component id 0, and every table
stores it at row 0. -/
def wGet : World :=
  { emptyWorld with
    archetypes := fun _ => { contains := fun cid => cid.index == 0 }
    components :=
      { emptyWorld.components with
        get_id := fun t => if t == 0 then some ⟨0⟩ else none
        get_valid_id := fun t => if t == 0 then some ⟨0⟩ else none }
    storages := { emptyWorld.storages with tables := fun _ => some tableFull } }

/-- Concrete world for the entity-construction evaluation: only entity 0 is
alive, at `loc0`; the tick window is `(3, 7)`. -/
def wEnt : World :=
  { emptyWorld with
    entities :=
      { emptyWorld.entities with
        get := fun e => if e.index == 0 then some loc0 else none }
    change_tick := 7
    last_change_tick := Tick.new 3 }

/-- Concrete world for the storage-dispatch evaluation: table 0 is
`tableFull`, and component id 0 also owns an empty sparse set. -/
def wDispatch : World :=
  { emptyWorld with
    storages :=
      { emptyWorld.storages with
        tables := fun tid => if tid.index == 0 then some tableFull else none
        sparse_sets := fun cid => if cid.index == 0 then some ssetEmpty else none } }

/-- Concrete world for the resource fail-soft evaluation: type id 0 maps to
resource id 1, whose entry exists but holds no value. -/
def wRes : World :=
  { emptyWorld with
    components :=
      { emptyWorld.components with
        get_valid_resource_id := fun t => if t == 0 then some ⟨1⟩ else none }
    storages :=
      { emptyWorld.storages with
        resources := fun cid =>
          if cid.index == 1 then some { get_data := none, get_with_ticks := none } else none } }

/-- Concrete world for the spawn-metadata evaluation: entity 0 has spawn
metadata, entity 1 has present-but-unset metadata. -/
def wSpawn : World :=
  { emptyWorld with
    entities :=
      { emptyWorld.entities with
        entity_get_spawned_or_despawned_by := fun e => if e.index == 0 then some 42 else none } }

lemma except_bind_ok {ε α β : Type} (a : α) (f : α → Except ε β) :
    (Except.ok a : Except ε α).bind f = f a := rfl

lemma except_bind_error {ε α β : Type} (m : ε) (f : α → Except ε β) :
    (Except.error m : Except ε α).bind f = Except.error m := rfl

lemma ok_or_none {α β : Type} (err : β) :
    ok_or (none : Option α) err = .error err := rfl

lemma ok_or_some {α β : Type} (a : α) (err : β) :
    ok_or (some a) err = .ok a := rfl

lemma assert_readonly (w : World) :
    (WorldCell.new_readonly w).assert_allows_mutable_access = .error assertForbiddenMsg := rfl

lemma assert_mutable_of (c : WorldCell) (hm : c.allows_mutable_access = true) :
    c.assert_allows_mutable_access = .ok () := by
  simp [WorldCell.assert_allows_mutable_access, hm]

lemma is_forbidden_ok {α : Type} (a : α) :
    is_forbidden_panic (Except.ok a : Except String α) = false := rfl

lemma is_forbidden_bind {α β : Type} (x : Except String α) (f : α → Except String β)
    (hf : ∀ a, is_forbidden_panic (f a) = false) (hx : is_forbidden_panic x = false) :
    is_forbidden_panic (x.bind f) = false := by
  cases x with
  | ok a => exact hf a
  | error m => exact hx

lemma dcu_not_forbidden {α : Type} (o : Option α) :
    is_forbidden_panic (debug_checked_unwrap o) = false := by
  cases o <;> rfl

lemma gcat_not_forbidden (w : WorldCell) (cid : ComponentId) (st : StorageType)
    (e : Entity) (loc : EntityLocation) :
    is_forbidden_panic (get_component_and_ticks w cid st e loc) = false := by
  cases st with
  | SparseSet => rfl
  | Table =>
    simp only [get_component_and_ticks]
    split
    · rfl
    · split
      · rfl
      · refine is_forbidden_bind _ _ (fun a => ?_) (dcu_not_forbidden _)
        refine is_forbidden_bind _ _ (fun b => ?_) (dcu_not_forbidden _)
        refine is_forbidden_bind _ _ (fun d => ?_) (dcu_not_forbidden _)
        rfl

lemma get_resource_mut_not_forbidden (c : WorldCell) (R : TypeId)
    (hm : c.allows_mutable_access = true) :
    is_forbidden_panic (c.get_resource_mut R) = false := by
  unfold WorldCell.get_resource_mut
  simp only [assert_mutable_of c hm, except_bind_ok]
  cases hv : c.components.get_valid_resource_id R with
  | none => rfl
  | some cid2 =>
    unfold WorldCell.get_resource_mut_by_id
    simp only [assert_mutable_of c hm, except_bind_ok]
    rfl

lemma get_non_send_resource_mut_not_forbidden (c : WorldCell) (R : TypeId)
    (hm : c.allows_mutable_access = true) :
    is_forbidden_panic (c.get_non_send_resource_mut R) = false := by
  unfold WorldCell.get_non_send_resource_mut
  simp only [assert_mutable_of c hm, except_bind_ok]
  cases hv : c.components.get_valid_resource_id R with
  | none => rfl
  | some cid2 =>
    unfold WorldCell.get_non_send_resource_mut_by_id
    simp only [assert_mutable_of c hm, except_bind_ok]
    rfl

lemma get_mut_not_forbidden (c : EntityCell) (T : ComponentType)
    (hm : c.world.allows_mutable_access = true) :
    is_forbidden_panic (c.get_mut T) = false := by
  unfold EntityCell.get_mut EntityCell.get_mut_assume_mutable
    EntityCell.get_mut_using_ticks_assume_mutable
  simp only [assert_mutable_of c.world hm, except_bind_ok]
  split
  · rfl
  · refine is_forbidden_bind _ _ (fun r => ?_) (gcat_not_forbidden _ _ _ _ _)
    rfl

lemma get_mut_by_id_not_forbidden (c : EntityCell) (cid : ComponentId)
    (hm : c.world.allows_mutable_access = true) :
    is_forbidden_panic (c.get_mut_by_id cid) = false := by
  unfold EntityCell.get_mut_by_id
  simp only [assert_mutable_of c.world hm, except_bind_ok]
  split
  · rfl
  · split
    · rfl
    · refine is_forbidden_bind _ _ (fun r => ?_) (gcat_not_forbidden _ _ _ _ _)
      rfl

lemma get_mut_assume_mutable_by_id_not_forbidden (c : EntityCell) (cid : ComponentId)
    (hm : c.world.allows_mutable_access = true) :
    is_forbidden_panic (c.get_mut_assume_mutable_by_id cid) = false := by
  unfold EntityCell.get_mut_assume_mutable_by_id
  simp only [assert_mutable_of c.world hm, except_bind_ok]
  split
  · rfl
  · refine is_forbidden_bind _ _ (fun r => ?_) (gcat_not_forbidden _ _ _ _ _)
    rfl

/-- C1: every mutating operation (world-mut escape, send and thread-bound
resource writes, typed and untyped mutable entity component access, and
`increment_trigger_id`) invoked on a read-only handle panics with the fixed
assertion message, which contains "is forbidden"; on a read-write handle the
same assertion passes and no panic whose message contains "is forbidden" can
occur. -/
theorem C1_readonly_no_escalation (w : World) (R : TypeId) (cid : ComponentId)
    (T : ComponentType) (e : Entity) (loc : EntityLocation) (lr tr : Tick) :
    substrOf forbiddenPat assertForbiddenMsg.data = true ∧
    (WorldCell.new_readonly w).world_mut = .error assertForbiddenMsg ∧
    (WorldCell.new_readonly w).get_resource_mut R = .error assertForbiddenMsg ∧
    (WorldCell.new_readonly w).get_resource_mut_by_id cid = .error assertForbiddenMsg ∧
    (WorldCell.new_readonly w).get_non_send_resource_mut R = .error assertForbiddenMsg ∧
    (WorldCell.new_readonly w).get_non_send_resource_mut_by_id cid = .error assertForbiddenMsg ∧
    (WorldCell.new_readonly w).increment_trigger_id = .error assertForbiddenMsg ∧
    (EntityCell.new (WorldCell.new_readonly w) e loc lr tr).get_mut T =
      .error assertForbiddenMsg ∧
    (EntityCell.new (WorldCell.new_readonly w) e loc lr tr).get_mut_by_id cid =
      .error assertForbiddenMsg ∧
    (EntityCell.new (WorldCell.new_readonly w) e loc lr tr).get_mut_assume_mutable_by_id cid =
      .error assertForbiddenMsg ∧
    (WorldCell.new_mutable w).assert_allows_mutable_access = .ok () ∧
    is_forbidden_panic ((WorldCell.new_mutable w).world_mut) = false ∧
    is_forbidden_panic ((WorldCell.new_mutable w).get_resource_mut R) = false ∧
    is_forbidden_panic ((WorldCell.new_mutable w).get_resource_mut_by_id cid) = false ∧
    is_forbidden_panic ((WorldCell.new_mutable w).get_non_send_resource_mut R) = false ∧
    is_forbidden_panic ((WorldCell.new_mutable w).get_non_send_resource_mut_by_id cid) = false ∧
    is_forbidden_panic ((WorldCell.new_mutable w).increment_trigger_id) = false ∧
    is_forbidden_panic ((EntityCell.new (WorldCell.new_mutable w) e loc lr tr).get_mut T) =
      false ∧
    is_forbidden_panic
      ((EntityCell.new (WorldCell.new_mutable w) e loc lr tr).get_mut_by_id cid) = false ∧
    is_forbidden_panic
      ((EntityCell.new (WorldCell.new_mutable w) e loc lr tr).get_mut_assume_mutable_by_id
        cid) = false := by
  refine ⟨rfl, rfl, rfl, rfl, rfl, rfl, rfl, rfl, rfl, rfl, rfl, rfl, ?_, rfl, ?_, rfl, rfl,
    ?_, ?_, ?_⟩
  · exact get_resource_mut_not_forbidden _ R rfl
  · exact get_non_send_resource_mut_not_forbidden _ R rfl
  · exact get_mut_not_forbidden _ T rfl
  · exact get_mut_by_id_not_forbidden _ cid rfl
  · exact get_mut_assume_mutable_by_id_not_forbidden _ cid rfl

/-- C2: on an entity sub-cell of a write-capable handle, `get_mut_by_id`
discriminates: unknown id yields `InfoNotFound`; known but immutable id
yields `ComponentIsImmutable`; known mutable id whose storage lookup finds
nothing for the entity yields `ComponentNotFound` — in that precedence
order. -/
theorem C2_untyped_write_error_ladder (c : EntityCell) (cid : ComponentId)
    (hm : c.world.allows_mutable_access = true) :
    (c.world.components.get_info cid = none →
      c.get_mut_by_id cid = .ok (.error .InfoNotFound)) ∧
    (∀ info, c.world.components.get_info cid = some info → info.mutable = false →
      c.get_mut_by_id cid = .ok (.error .ComponentIsImmutable)) ∧
    (∀ info, c.world.components.get_info cid = some info → info.mutable = true →
      get_component_and_ticks c.world cid info.storage_type c.entity c.location = .ok none →
      c.get_mut_by_id cid = .ok (.error .ComponentNotFound)) := by
  refine ⟨fun h => ?_, fun info h hmut => ?_, fun info h hmut hg => ?_⟩
  · unfold EntityCell.get_mut_by_id
    simp only [assert_mutable_of c.world hm, except_bind_ok, h]
  · unfold EntityCell.get_mut_by_id
    simp only [assert_mutable_of c.world hm, except_bind_ok, h, hmut, Bool.not_false, if_true]
  · unfold EntityCell.get_mut_by_id
    simp only [assert_mutable_of c.world hm, except_bind_ok, h, hmut, Bool.not_true,
      hg, Option.map_none', ok_or_none]
    simp

theorem C2_untyped_write_error_ladder_witness :
    EntityCell.get_mut_by_id
      (EntityCell.new (WorldCell.new_mutable wErr) ⟨0⟩ loc0 (Tick.new 0) (Tick.new 0)) ⟨0⟩ =
      .ok (.error .InfoNotFound) ∧
    EntityCell.get_mut_by_id
      (EntityCell.new (WorldCell.new_mutable wErr) ⟨0⟩ loc0 (Tick.new 0) (Tick.new 0)) ⟨1⟩ =
      .ok (.error .ComponentIsImmutable) ∧
    EntityCell.get_mut_by_id
      (EntityCell.new (WorldCell.new_mutable wErr) ⟨0⟩ loc0 (Tick.new 0) (Tick.new 0)) ⟨2⟩ =
      .ok (.error .ComponentNotFound) := by
  refine ⟨?_, ?_, ?_⟩
  · exact (C2_untyped_write_error_ladder _ _ rfl).1 rfl
  · exact (C2_untyped_write_error_ladder _ _ rfl).2.1
      { storage_type := .SparseSet, mutable := false } rfl rfl
  · exact (C2_untyped_write_error_ladder _ _ rfl).2.2
      { storage_type := .SparseSet, mutable := true } rfl rfl rfl

/-- C3: for a component type known to the registry (both `get_id` and
`get_valid_id` resolve it to the same id) and a world where the archetype
membership of the id agrees with the storage lookup, the typed read
`get::<T>` is absent exactly when `contains::<T>` is false. -/
theorem C3_absence_equivalence (c : EntityCell) (T : ComponentType) (cid : ComponentId)
    (hvalid : c.world.components.get_valid_id T.type_id = some cid)
    (hid : c.world.components.get_id T.type_id = some cid)
    (hcons : c.archetype.contains cid = true ↔
      (get_component c.world cid T.storage_type c.entity c.location).isSome) :
    (c.get T = none ↔ c.contains T = false) := by
  unfold EntityCell.get EntityCell.contains EntityCell.contains_type_id EntityCell.contains_id
  simp only [hvalid, hid]
  show get_component c.world cid T.storage_type c.entity c.location = none ↔
    c.archetype.contains cid = false
  constructor
  · intro hnone
    rw [hnone] at hcons
    simp at hcons
    exact hcons
  · intro hfalse
    rw [hfalse] at hcons
    simp [Option.not_isSome_iff_eq_none] at hcons
    exact hcons

theorem C3_absence_equivalence_witness :
    (EntityCell.get
        (EntityCell.new (WorldCell.new_readonly wGet) ⟨0⟩ loc0 (Tick.new 0) (Tick.new 0))
        ⟨0, .Table⟩ = none ↔
      EntityCell.contains
        (EntityCell.new (WorldCell.new_readonly wGet) ⟨0⟩ loc0 (Tick.new 0) (Tick.new 0))
        ⟨0, .Table⟩ = false) :=
  C3_absence_equivalence _ ⟨0, .Table⟩ ⟨0⟩ rfl rfl (by decide)

/-- C4: entity sub-cell construction fails with `EntityDoesNotExist` exactly
when the entity index has no location; on success `get_entity` carries the
resolved location and the world's own tick window while
`get_entity_with_ticks` carries the caller-supplied window, all other fields
identical. -/
theorem C4_entity_construction (c : WorldCell) (e : Entity) (lr tr : Tick) :
    (c.entities.get e = none →
      c.get_entity e = .error { entity := e } ∧
      c.get_entity_with_ticks e lr tr = .error { entity := e }) ∧
    (∀ loc, c.entities.get e = some loc →
      c.get_entity e = .ok { world := c, entity := e, location := loc
                             last_run := c.last_change_tick, this_run := c.change_tick } ∧
      c.get_entity_with_ticks e lr tr =
        .ok { world := c, entity := e, location := loc, last_run := lr, this_run := tr }) := by
  constructor
  · intro h
    constructor
    · unfold WorldCell.get_entity
      simp only [h]
    · unfold WorldCell.get_entity_with_ticks
      simp only [h]
  · intro loc h
    constructor
    · unfold WorldCell.get_entity
      simp only [h]
    · unfold WorldCell.get_entity_with_ticks
      simp only [h]

theorem C4_entity_construction_witness :
    WorldCell.get_entity (WorldCell.new_readonly wEnt) ⟨1⟩ = .error { entity := ⟨1⟩ } ∧
    WorldCell.get_entity_with_ticks (WorldCell.new_readonly wEnt) ⟨1⟩ (Tick.new 1)
      (Tick.new 2) = .error { entity := ⟨1⟩ } ∧
    WorldCell.get_entity (WorldCell.new_readonly wEnt) ⟨0⟩ =
      .ok { world := WorldCell.new_readonly wEnt, entity := ⟨0⟩, location := loc0
            last_run := Tick.new 3, this_run := Tick.new 7 } ∧
    WorldCell.get_entity_with_ticks (WorldCell.new_readonly wEnt) ⟨0⟩ (Tick.new 1)
      (Tick.new 2) =
      .ok { world := WorldCell.new_readonly wEnt, entity := ⟨0⟩, location := loc0
            last_run := Tick.new 1, this_run := Tick.new 2 } := by
  refine ⟨?_, ?_, ?_, ?_⟩
  · exact ((C4_entity_construction (WorldCell.new_readonly wEnt) ⟨1⟩ (Tick.new 1)
      (Tick.new 2)).1 rfl).1
  · exact ((C4_entity_construction (WorldCell.new_readonly wEnt) ⟨1⟩ (Tick.new 1)
      (Tick.new 2)).1 rfl).2
  · exact ((C4_entity_construction (WorldCell.new_readonly wEnt) ⟨0⟩ (Tick.new 1)
      (Tick.new 2)).2 loc0 rfl).1
  · exact ((C4_entity_construction (WorldCell.new_readonly wEnt) ⟨0⟩ (Tick.new 1)
      (Tick.new 2)).2 loc0 rfl).2

/-- C5: the inner component-lookup primitives dispatch solely on the storage
kind: table storage indexes the table named by the cached location at
`table_row` (the ticks variant also retrieving the added/changed tick cells
and the caller-location cell at that row) and ignores the entity id, while
sparse-set storage indexes the per-component sparse set by entity id, is
independent of the location, and is absent when the entity is not in the
set. -/
theorem C5_storage_dispatch (w : WorldCell) (cid : ComponentId) (e e2 : Entity)
    (loc loc2 : EntityLocation) :
    (get_component w cid .Table e loc =
      (w.storages.tables loc.table_id).bind fun t => t.get_component cid loc.table_row) ∧
    (get_component w cid .Table e loc = get_component w cid .Table e2 loc) ∧
    (get_component w cid .SparseSet e loc =
      (w.storages.sparse_sets cid).bind fun s => s.get e) ∧
    (get_component w cid .SparseSet e loc = get_component w cid .SparseSet e loc2) ∧
    (∀ s, w.storages.sparse_sets cid = some s → s.get e = none →
      get_component w cid .SparseSet e loc = none) ∧
    (get_component_and_ticks w cid .SparseSet e loc =
      .ok ((w.storages.sparse_sets cid).bind fun s => s.get_with_ticks e)) ∧
    (∀ s, w.storages.sparse_sets cid = some s → s.get_with_ticks e = none →
      get_component_and_ticks w cid .SparseSet e loc = .ok none) ∧
    (∀ t v a b d, w.storages.tables loc.table_id = some t →
      t.get_component cid loc.table_row = some v →
      t.get_added_tick cid loc.table_row = some a →
      t.get_changed_tick cid loc.table_row = some b →
      t.get_changed_by cid loc.table_row = some d →
      get_component_and_ticks w cid .Table e loc =
        .ok (some (v, { added := a, changed := b }, d))) := by
  refine ⟨rfl, rfl, rfl, rfl, fun s hs hget => ?_, rfl, fun s hs hget => ?_,
    fun t v a b d ht hc ha hb hd => ?_⟩
  · show (w.storages.sparse_sets cid).bind (fun x => x.get e) = none
    rw [hs]
    exact hget
  · show Except.ok ((w.storages.sparse_sets cid).bind fun x => x.get_with_ticks e) =
      Except.ok none
    rw [hs]
    show Except.ok (s.get_with_ticks e) = Except.ok none
    rw [hget]
  · unfold get_component_and_ticks WorldCell.fetch_table
    simp only [ht, hc, ha, hb, hd, debug_checked_unwrap, except_bind_ok]

theorem C5_storage_dispatch_witness :
    get_component (WorldCell.new_readonly wDispatch) ⟨0⟩ .SparseSet ⟨5⟩ loc0 = none ∧
    get_component_and_ticks (WorldCell.new_readonly wDispatch) ⟨0⟩ .SparseSet ⟨5⟩ loc0 =
      .ok none ∧
    get_component_and_ticks (WorldCell.new_readonly wDispatch) ⟨0⟩ .Table ⟨5⟩ loc0 =
      .ok (some (7, { added := 1, changed := 2 }, 3)) := by
  refine ⟨?_, ?_, ?_⟩
  · exact (C5_storage_dispatch (WorldCell.new_readonly wDispatch) ⟨0⟩ ⟨5⟩ ⟨5⟩ loc0
      loc0).2.2.2.2.1 ssetEmpty rfl rfl
  · exact (C5_storage_dispatch (WorldCell.new_readonly wDispatch) ⟨0⟩ ⟨5⟩ ⟨5⟩ loc0
      loc0).2.2.2.2.2.2.1 ssetEmpty rfl rfl
  · exact (C5_storage_dispatch (WorldCell.new_readonly wDispatch) ⟨0⟩ ⟨5⟩ ⟨5⟩ loc0
      loc0).2.2.2.2.2.2.2 tableFull 7 1 2 3 rfl rfl rfl rfl rfl

/-- C6: `increment_change_tick` returns the pre-increment value of the
world's change-tick counter, and afterwards the counter equals the returned
tick plus one modulo the `u32` width. -/
theorem C6_increment_returns_pre (c : WorldCell) :
    (c.increment_change_tick).1 = Tick.new c.ptr.change_tick ∧
    (c.increment_change_tick).2.ptr.change_tick =
      ((c.increment_change_tick).1.tick + 1) % 2 ^ 32 :=
  ⟨rfl, rfl⟩

lemma tick_after_shift (t : Nat) : ∀ k, tick_after ((t + 1) % 2 ^ 32) k = tick_after t (k + 1) := by
  intro k
  induction k with
  | zero => rfl
  | succ k ih =>
    show (tick_after ((t + 1) % 2 ^ 32) k + 1) % 2 ^ 32 = tick_after t (k + 1 + 1)
    rw [ih]
    rfl

lemma run_increments_fst (n : Nat) : ∀ c : WorldCell,
    (run_increments c n).1 =
      (List.range n).map fun k => Tick.new (tick_after c.ptr.change_tick k) := by
  induction n with
  | zero =>
    intro c
    simp [run_increments]
  | succ n ih =>
    intro c
    rw [List.range_succ_eq_map]
    simp only [run_increments, WorldCell.increment_change_tick, List.map_cons, List.map_map]
    rw [ih]
    refine congrArg₂ _ rfl ?_
    refine List.map_congr_left fun a _ => ?_
    show Tick.new (tick_after ((c.ptr.change_tick + 1) % 2 ^ 32) a) =
      Tick.new (tick_after c.ptr.change_tick (a + 1))
    rw [tick_after_shift]

/-- C7: over any finite sequence of `increment_change_tick` calls on the same
handle, each returned tick is the previous returned tick plus one modulo the
`u32` width. -/
theorem C7_tick_monotonic (c : WorldCell) (n i : Nat) (h : i + 1 < n) :
    (run_increments c n).1[i + 1]? =
      Option.map (fun t => Tick.new ((t.tick + 1) % 2 ^ 32)) (run_increments c n).1[i]? := by
  rw [run_increments_fst, List.getElem?_map, List.getElem?_map,
    List.getElem?_range h, List.getElem?_range (Nat.lt_of_succ_lt h)]
  rfl

theorem C7_tick_monotonic_witness :
    (run_increments (WorldCell.new_readonly emptyWorld) 3).1[1]? =
      Option.map (fun t => Tick.new ((t.tick + 1) % 2 ^ 32))
        (run_increments (WorldCell.new_readonly emptyWorld) 3).1[0]? :=
  C7_tick_monotonic (WorldCell.new_readonly emptyWorld) 3 0 (by decide)

/-- C8: the send-bound resource read accessors are fail-soft: `get_resource`
is absent when the registry has no valid resource id, and `get_resource_by_id`
is absent when the storage has no entry for the id or the entry holds no
value; no panic path exists (the accessors are total functions into
`Option`). -/
theorem C8_resource_fail_soft (c : WorldCell) (R : TypeId) (cid : ComponentId) :
    (c.components.get_valid_resource_id R = none → c.get_resource R = none) ∧
    (∀ cid2, c.components.get_valid_resource_id R = some cid2 →
      c.get_resource R = c.get_resource_by_id cid2) ∧
    (c.storages.resources cid = none → c.get_resource_by_id cid = none) ∧
    (∀ entry, c.storages.resources cid = some entry → entry.get_data = none →
      c.get_resource_by_id cid = none) := by
  refine ⟨fun h => ?_, fun cid2 h => ?_, fun h => ?_, fun entry h hd => ?_⟩
  · unfold WorldCell.get_resource
    rw [h]
    rfl
  · unfold WorldCell.get_resource
    rw [h]
    rfl
  · unfold WorldCell.get_resource_by_id
    rw [h]
    rfl
  · unfold WorldCell.get_resource_by_id
    rw [h]
    exact hd

theorem C8_resource_fail_soft_witness :
    WorldCell.get_resource (WorldCell.new_readonly wRes) 5 = none ∧
    WorldCell.get_resource (WorldCell.new_readonly wRes) 0 =
      WorldCell.get_resource_by_id (WorldCell.new_readonly wRes) ⟨1⟩ ∧
    WorldCell.get_resource_by_id (WorldCell.new_readonly wRes) ⟨9⟩ = none ∧
    WorldCell.get_resource_by_id (WorldCell.new_readonly wRes) ⟨1⟩ = none := by
  refine ⟨?_, ?_, ?_, ?_⟩
  · exact (C8_resource_fail_soft (WorldCell.new_readonly wRes) 5 ⟨0⟩).1 rfl
  · exact (C8_resource_fail_soft (WorldCell.new_readonly wRes) 0 ⟨0⟩).2.1 ⟨1⟩ rfl
  · exact (C8_resource_fail_soft (WorldCell.new_readonly wRes) 0 ⟨9⟩).2.2.1 rfl
  · exact (C8_resource_fail_soft (WorldCell.new_readonly wRes) 0 ⟨1⟩).2.2.2
      { get_data := none, get_with_ticks := none } rfl rfl

/-- C9: `spawned_by` returns the source location whenever the entity index
has spawn metadata set for the entity (so under the live-entity invariant the
unwrap never fails), and panics when the index returns present-but-unset
metadata. -/
theorem C9_spawned_by_unwraps (c : EntityCell) :
    (∀ l, c.world.entities.entity_get_spawned_or_despawned_by c.entity = some l →
      c.spawned_by = .ok l) ∧
    (c.world.entities.entity_get_spawned_or_despawned_by c.entity = none →
      c.spawned_by = .error unwrapNoneMsg) := by
  constructor
  · intro l h
    unfold EntityCell.spawned_by
    simp only [h]
  · intro h
    unfold EntityCell.spawned_by
    simp only [h]

theorem C9_spawned_by_unwraps_witness :
    EntityCell.spawned_by
      (EntityCell.new (WorldCell.new_readonly wSpawn) ⟨0⟩ loc0 (Tick.new 0) (Tick.new 0)) =
      .ok 42 ∧
    EntityCell.spawned_by
      (EntityCell.new (WorldCell.new_readonly wSpawn) ⟨1⟩ loc0 (Tick.new 0) (Tick.new 0)) =
      .error unwrapNoneMsg := by
  constructor
  · exact (C9_spawned_by_unwraps _).1 42 rfl
  · exact (C9_spawned_by_unwraps _).2 rfl

/-- C10: `get_mut_assume_mutable_by_id` never returns `ComponentIsImmutable`;
it returns `InfoNotFound` for an unknown id, `ComponentNotFound` when the
entity lacks the component, succeeds otherwise, and agrees with
`get_mut_by_id` whenever the component is mutable — i.e. it is
`get_mut_by_id` with the mutability check removed. -/
theorem C10_assume_mutable_skips_check (c : EntityCell) (cid : ComponentId)
    (hm : c.world.allows_mutable_access = true) :
    (c.get_mut_assume_mutable_by_id cid ≠ .ok (.error .ComponentIsImmutable)) ∧
    (c.world.components.get_info cid = none →
      c.get_mut_assume_mutable_by_id cid = .ok (.error .InfoNotFound)) ∧
    (∀ info, c.world.components.get_info cid = some info →
      get_component_and_ticks c.world cid info.storage_type c.entity c.location = .ok none →
      c.get_mut_assume_mutable_by_id cid = .ok (.error .ComponentNotFound)) ∧
    (∀ info x, c.world.components.get_info cid = some info →
      get_component_and_ticks c.world cid info.storage_type c.entity c.location =
        .ok (some x) →
      c.get_mut_assume_mutable_by_id cid =
        .ok (.ok { value := x.1
                   ticks := TicksMut.from_tick_cells x.2.1 c.last_run c.this_run
                   changed_by := x.2.2 })) ∧
    (∀ info, c.world.components.get_info cid = some info → info.mutable = true →
      c.get_mut_assume_mutable_by_id cid = c.get_mut_by_id cid) := by
  refine ⟨?_, fun h => ?_, fun info h hg => ?_, fun info x h hg => ?_, fun info h hmut => ?_⟩
  · intro hcontra
    unfold EntityCell.get_mut_assume_mutable_by_id at hcontra
    simp only [assert_mutable_of c.world hm, except_bind_ok] at hcontra
    split at hcontra
    · simp at hcontra
    · rename_i info heq
      cases hg : get_component_and_ticks c.world cid info.storage_type c.entity c.location with
      | error m =>
        rw [hg] at hcontra
        simp [except_bind_error] at hcontra
      | ok r =>
        rw [hg] at hcontra
        simp only [except_bind_ok] at hcontra
        cases r with
        | none => simp [Option.map_none', ok_or_none] at hcontra
        | some x => simp [Option.map_some', ok_or_some] at hcontra
  · unfold EntityCell.get_mut_assume_mutable_by_id
    simp only [assert_mutable_of c.world hm, except_bind_ok, h]
  · unfold EntityCell.get_mut_assume_mutable_by_id
    simp only [assert_mutable_of c.world hm, except_bind_ok, h, hg, Option.map_none',
      ok_or_none]
  · unfold EntityCell.get_mut_assume_mutable_by_id
    simp only [assert_mutable_of c.world hm, except_bind_ok, h, hg, Option.map_some',
      ok_or_some]
  · unfold EntityCell.get_mut_assume_mutable_by_id EntityCell.get_mut_by_id
    simp only [assert_mutable_of c.world hm, except_bind_ok, h, hmut, Bool.not_true]
    simp

theorem C10_assume_mutable_skips_check_witness :
    (EntityCell.get_mut_assume_mutable_by_id
        (EntityCell.new (WorldCell.new_mutable wErr) ⟨0⟩ loc0 (Tick.new 0) (Tick.new 0)) ⟨1⟩ ≠
      .ok (.error .ComponentIsImmutable)) ∧
    EntityCell.get_mut_assume_mutable_by_id
      (EntityCell.new (WorldCell.new_mutable wErr) ⟨0⟩ loc0 (Tick.new 0) (Tick.new 0)) ⟨0⟩ =
      .ok (.error .InfoNotFound) ∧
    EntityCell.get_mut_assume_mutable_by_id
      (EntityCell.new (WorldCell.new_mutable wErr) ⟨0⟩ loc0 (Tick.new 0) (Tick.new 0)) ⟨2⟩ =
      .ok (.error .ComponentNotFound) ∧
    EntityCell.get_mut_assume_mutable_by_id
      (EntityCell.new (WorldCell.new_mutable wErr) ⟨0⟩ loc0 (Tick.new 0) (Tick.new 0)) ⟨3⟩ =
      .ok (.ok { value := 9
                 ticks := { added := 4, changed := 5, last_run := Tick.new 0
                            this_run := Tick.new 0 }
                 changed_by := 6 }) ∧
    EntityCell.get_mut_assume_mutable_by_id
      (EntityCell.new (WorldCell.new_mutable wErr) ⟨0⟩ loc0 (Tick.new 0) (Tick.new 0)) ⟨2⟩ =
      EntityCell.get_mut_by_id
        (EntityCell.new (WorldCell.new_mutable wErr) ⟨0⟩ loc0 (Tick.new 0) (Tick.new 0))
        ⟨2⟩ := by
  refine ⟨?_, ?_, ?_, ?_, ?_⟩
  · exact (C10_assume_mutable_skips_check _ _ rfl).1
  · exact (C10_assume_mutable_skips_check _ _ rfl).2.1 rfl
  · exact (C10_assume_mutable_skips_check _ _ rfl).2.2.1
      { storage_type := .SparseSet, mutable := true } rfl rfl
  · exact (C10_assume_mutable_skips_check _ _ rfl).2.2.2.1
      { storage_type := .SparseSet, mutable := true }
      (9, { added := 4, changed := 5 }, 6) rfl rfl
  · exact (C10_assume_mutable_skips_check _ _ rfl).2.2.2.2
      { storage_type := .SparseSet, mutable := true } rfl rfl

end Bevy
